import Mathlib

/-!
Shallow embedding of the oogway/go-cache repository (a fork of revel's cache
package) for checking its natural-language specification.

Modelled source files:
* `inmemory.go` — `InMemoryCache`, wrapping patrickmn/go-cache;
* `src/unnamed/part_002` — the current `RedisCache` built on go-redis
  (`Set`, `lockRetry`, `Add`, `SetFields`, `Replace`, `Get`, `GetMulti`,
  `Delete`, `Keys`, `Flush`, `RedisItemMapGetter`);
* `src/unnamed/part_001` — the superseded redigo-based `RedisCache`
  (only its `Delete` is modelled, as `legacyDelete`).

External collaborators are modelled at their documented interface:
`encoding/json` marshal/unmarshal, the go-redis single-key commands
(`SET`, `SETNX`, `GET`, `EXISTS`, `DEL`, `MGET`), patrickmn/go-cache's
expiring map, and `highbrow.Try` (call the closure up to `n` times,
stopping at the first nil return, otherwise returning the last error).

The networked store is explicit state (`RedisState`): an association list
from key to stored payload with optional absolute expiry, a fault-injection
schedule consumed one slot per issued store command (an empty schedule is a
healthy store), a ghost log of issued commands, and a frozen current time.
Go `time.Duration` values are `Int` in abstract units; absolute instants are
`Nat`. A Go panic is the `Outcome.panicked` result.
-/

namespace GoCache

/-- Primitive JSON values: the field values of a Go `map[string]interface{}`
in the modelled value universe. -/
inductive JPrim where
  | pnull
  | pnum (n : Int)
  | pstr (s : String)
  | pbool (b : Bool)
deriving DecidableEq, Repr

/-- Structured values handed to the cache (`interface{}` in Go). `jobj` is a
`map[string]interface{}` with primitive fields; `jbad` models a value that
`json.Marshal` rejects (function, channel, ...). -/
inductive JVal where
  | jnull
  | jnum (n : Int)
  | jstr (s : String)
  | jbool (b : Bool)
  | jobj (fields : List (String × JPrim))
  | jbad
deriving DecidableEq, Repr

/-- Byte payloads as stored in the networked store: `json v` is the
`json.Marshal` encoding of `v`; `raw v` is the go-redis wire encoding of the
unserialized value `v` (written when code passes a value straight to
`pool.Set`); `lockMark` is the literal string "1" written by `SetNX` for a
lock token. -/
inductive Bytes where
  | json (v : JVal)
  | raw (v : JVal)
  | lockMark
deriving DecidableEq, Repr

/-- Go error values returned by the cache layer. `cacheMiss`/`notStored` are
the contract's sentinel errors; `lockFailed` is `errors.New("Cannot get
Lock. Retrying.")`; `storeFault n` is an opaque transport error from the
store; `marshalErr`/`unmarshalErr` are codec failures; `encodeErr` is
go-redis rejecting an argument it cannot write. -/
inductive GoErr where
  | cacheMiss
  | notStored
  | lockFailed
  | storeFault (n : Nat)
  | marshalErr
  | unmarshalErr
  | encodeErr
deriving DecidableEq, Repr

/-- Ghost trace of store commands issued by the networked backend. -/
inductive Cmd where
  | setnx (k : String)
  | del (k : String)
  | set (k : String)
  | get (k : String)
  | existsQ (k : String)
  | mget (ks : List String)
deriving DecidableEq, Repr

/-- Result of a Go call that may return a value, return an error, or abort
the process with a runtime panic. -/
inductive Outcome (α : Type) where
  | ok (a : α)
  | err (e : GoErr)
  | panicked
deriving DecidableEq, Repr

/-- Is `v` accepted by `json.Marshal`? In the modelled universe only `jbad`
is rejected. -/
def serializable : JVal → Bool
  | JVal.jbad => false
  | _ => true

/-- Model of `json.Marshal`: fails exactly on unserializable values. -/
def jsonMarshal (v : JVal) : Option Bytes :=
  if serializable v then some (Bytes.json v) else none

/-- Model of the go-redis argument writer for a value passed unserialized to
`pool.Set` (part_002 `Add`/`Replace`): numbers, strings and booleans have a
wire encoding; maps, nil and unserializable values are rejected with a
client-side error. -/
def rawEncode : JVal → Option Bytes
  | JVal.jnum n => some (Bytes.raw (JVal.jnum n))
  | JVal.jstr s => some (Bytes.raw (JVal.jstr s))
  | JVal.jbool b => some (Bytes.raw (JVal.jbool b))
  | _ => none

/-- Model of `json.Unmarshal` of a stored payload into `interface{}`.
`json v` round-trips. A `raw` number's decimal text parses as that number; a
`raw` boolean was written as "1"/"0" and parses as that number; a `raw`
string is taken from the universe of strings that are not themselves valid
JSON texts (for example "foo"), so it fails to parse. The lock token "1"
parses as the number 1. -/
def decodeBytes : Bytes → Option JVal
  | Bytes.json v => some v
  | Bytes.raw (JVal.jnum n) => some (JVal.jnum n)
  | Bytes.raw (JVal.jbool b) => some (JVal.jnum (if b then 1 else 0))
  | Bytes.raw _ => none
  | Bytes.lockMark => some (JVal.jnum 1)

/-- Go map assignment `m[k] = v` on an association-list model of
`map[string]interface{}`. -/
def setField (m : List (String × JPrim)) (k : String) (v : JPrim) :
    List (String × JPrim) :=
  if (List.lookup k m).isSome then
    m.map (fun kv => if kv.1 == k then (k, v) else kv)
  else m ++ [(k, v)]

/-- The merge loop `for k, v := range value { existing[k] = v }`. -/
def mergeFields (m p : List (String × JPrim)) : List (String × JPrim) :=
  p.foldl (fun acc kv => setField acc kv.1 kv.2) m

/-- Remove every binding of key `k` (model of map/store deletion). -/
def eraseKey {β : Type} (k : String) (l : List (String × β)) :
    List (String × β) :=
  l.filter (fun p => p.1 != k)

/-- Contents of the networked store: key, payload bytes, optional absolute
expiry instant. -/
abbrev RStore := List (String × Bytes × Option Nat)

/-- State of the networked store as seen through one client: the keyspace, a
fault-injection schedule (one slot consumed per issued command; an exhausted
or all-`none` schedule is a healthy store), a ghost command log, and the
current time (frozen during an operation; redis expires keys lazily at read
time). -/
structure RedisState where
  store : RStore
  faults : List (Option GoErr)
  log : List Cmd
  now : Nat
deriving DecidableEq, Repr

/-- Consume one slot of the fault schedule. -/
def popFault (s : RedisState) : Option GoErr × RedisState :=
  match s.faults with
  | [] => (none, s)
  | f :: fs => (f, { s with faults := fs })

/-- Append a command to the ghost log. -/
def logCmd (c : Cmd) (s : RedisState) : RedisState :=
  { s with log := s.log ++ [c] }

/-- The payload of `k` if a live (non-expired) entry exists, as redis
reports it at time `now`. -/
def liveLookup (k : String) (store : RStore) (now : Nat) : Option Bytes :=
  match List.lookup k store with
  | none => none
  | some (b, none) => some b
  | some (b, some t) => if now < t then some b else none

/-- Absolute expiry for a duration directive: go-redis attaches a TTL only
when the duration is positive. -/
def expAt (d : Int) (now : Nat) : Option Nat :=
  if d > 0 then some (now + d.toNat) else none

/-- Store `b` under `k`, replacing any previous entry. -/
def storePut (k : String) (b : Bytes) (e : Option Nat) (st : RStore) :
    RStore :=
  (k, b, e) :: eraseKey k st

/-- Command `SET k b [EX d]` (`c.pool.Set(key, b, expires)`). -/
def poolSetBytes (k : String) (b : Bytes) (d : Int) (s : RedisState) :
    Option GoErr × RedisState :=
  match popFault (logCmd (Cmd.set k) s) with
  | (some e, s1) => (some e, s1)
  | (none, s1) =>
      (none, { s1 with store := storePut k b (expAt d s1.now) s1.store })

/-- Command `SETNX k "1" EX d` (`c.pool.SetNX(lockKey, "1", 5*time.Second)`):
true and stores the token if no live entry exists, false otherwise. -/
def poolSetNX (k : String) (d : Int) (s : RedisState) :
    Except GoErr Bool × RedisState :=
  match popFault (logCmd (Cmd.setnx k) s) with
  | (some e, s1) => (Except.error e, s1)
  | (none, s1) =>
      if (liveLookup k s1.store s1.now).isSome then (Except.ok false, s1)
      else
        (Except.ok true,
          { s1 with store := storePut k Bytes.lockMark (expAt d s1.now) s1.store })

/-- Command `GET k` (`c.pool.Get(key).Bytes()`): `ok none` is the redis nil
reply for an absent or expired key. -/
def poolGetBytes (k : String) (s : RedisState) :
    Except GoErr (Option Bytes) × RedisState :=
  match popFault (logCmd (Cmd.get k) s) with
  | (some e, s1) => (Except.error e, s1)
  | (none, s1) => (Except.ok (liveLookup k s1.store s1.now), s1)

/-- Command `EXISTS k` (`c.pool.Exists(key).Result()`): the count of live
keys among the arguments (0 or 1 here). -/
def poolExists (k : String) (s : RedisState) :
    Except GoErr Nat × RedisState :=
  match popFault (logCmd (Cmd.existsQ k) s) with
  | (some e, s1) => (Except.error e, s1)
  | (none, s1) =>
      (Except.ok (if (liveLookup k s1.store s1.now).isSome then 1 else 0), s1)

/-- Command `DEL k` (`c.pool.Del(key)`): returns the number of keys removed
(an expired entry counts as already gone) and removes the entry. -/
def poolDel (k : String) (s : RedisState) : Except GoErr Nat × RedisState :=
  match popFault (logCmd (Cmd.del k) s) with
  | (some e, s1) => (Except.error e, s1)
  | (none, s1) =>
      (Except.ok (if (liveLookup k s1.store s1.now).isSome then 1 else 0),
        { s1 with store := eraseKey k s1.store })

/-- Command `MGET keys` (`c.pool.MGet(keys...)`): one reply per requested
key, nil for absent or expired keys. -/
def poolMGet (ks : List String) (s : RedisState) :
    Except GoErr (List (Option Bytes)) × RedisState :=
  match popFault (logCmd (Cmd.mget ks) s) with
  | (some e, s1) => (Except.error e, s1)
  | (none, s1) => (Except.ok (ks.map (fun k => liveLookup k s1.store s1.now)), s1)

/-- The `RedisCache` struct (part_002): the pool is the explicit
`RedisState`, so only the configuration fields remain. -/
structure RedisCache where
  defaultExpiration : Int
  lockRetries : Nat
deriving DecidableEq, Repr

/-- Constant `lockRetries = 5` (part_002 line 119). -/
def lockRetries : Nat := 5

/-- Constant `defaultRetryThreshold = 5`. -/
def defaultRetryThreshold : Nat := 5

/-- The safety-window expiry `5*time.Second` passed to `SetNX`. -/
def lockWindow : Int := 5

/-- Configuration options of `NewRedisCache` (part_002 lines 37-48). -/
structure RedisOpts where
  MaxIdle : Int
  MaxActive : Int
  Protocol : String
  Host : String
  Password : String
  Expiration : Int
  TimeoutConnect : Int
  TimeoutRead : Int
  TimeoutWrite : Int
  TimeoutIdle : Int
deriving DecidableEq, Repr

/-- `RedisOpts.padDefaults` (part_002 lines 50-84). -/
def RedisOpts.padDefaults (r : RedisOpts) : RedisOpts :=
  let r := if r.MaxIdle = 0 then { r with MaxIdle := 5 } else r
  let r := if r.MaxActive = 0 then { r with MaxActive := 0 } else r
  let r := if r.TimeoutConnect = 0 then { r with TimeoutConnect := 10000 } else r
  let r := if r.TimeoutIdle = 0 then { r with TimeoutIdle := 240 } else r
  let r := if r.TimeoutRead = 0 then { r with TimeoutRead := 5000 } else r
  let r := if r.TimeoutWrite = 0 then { r with TimeoutWrite := 5000 } else r
  let r := if r.Host = "" then { r with Host := "localhost:6379" } else r
  let r := if r.Protocol = "" then { r with Protocol := "tcp" } else r
  r

/-- `NewRedisCache` (part_002 lines 88-109). The connection pool it builds is
external; the composite literal `&RedisCache{pool: c, lockRetries:
lockRetries}` omits `defaultExpiration`, which therefore keeps Go's zero
value 0 — `opts.Expiration` is dropped. -/
def NewRedisCache (opts : RedisOpts) : RedisCache :=
  let _padded := opts.padDefaults
  { defaultExpiration := 0, lockRetries := lockRetries }

/-- Modelled from the spec: the Cache Contract's expiry sentinels live in
the contract source file, which is missing from src/. The spec names them
`DefaultExpiry` and `NeverExpire`; inmemory.go line 81 calls them
`DefaultExpiryTime` and `ForEverNeverExpiry` and says patrickmn/go-cache
"understands the values", pinning them to go-cache's `DefaultExpiration = 0`
and `NoExpiration = -1`. -/
def DefaultExpiryTime : Int := 0

/-- Modelled from the spec: see `DefaultExpiryTime`. -/
def ForEverNeverExpiry : Int := -1

/-- `RedisCache.Set` (part_002 lines 111-117): `json.Marshal` the value,
then `c.pool.Set(key, b, expires)` — the expiry duration is transmitted
unchanged, with no sentinel resolution. -/
def RedisCache.Set (_c : RedisCache) (key : String) (value : JVal)
    (expires : Int) (s : RedisState) : Option GoErr × RedisState :=
  match jsonMarshal value with
  | none => (some GoErr.marshalErr, s)
  | some b => poolSetBytes key b expires s

/-- One iteration of the closure passed to `highbrow.Try` inside
`lockRetry` (part_002 lines 124-142). Returns the closure's return value,
the value of the captured `breakErr` after the iteration (it is `nil` at
every entry: each earlier iteration that assigned it also returned nil and
so stopped the retry loop), and the state. The critical section `op` runs
with the token held; the deferred `c.pool.Del(lockKey)` runs after it, its
result discarded. -/
def lockAttempt (key : String) (op : RedisState → Option GoErr × RedisState)
    (s : RedisState) : Option GoErr × Option GoErr × RedisState :=
  let lockKey := key ++ "-op"
  match poolSetNX lockKey lockWindow s with
  | (Except.error e, s1) => (none, some e, s1)
  | (Except.ok false, s1) => (some GoErr.lockFailed, none, s1)
  | (Except.ok true, s1) =>
      let (r, s2) := op s1
      let (_, s3) := poolDel lockKey s2
      (none, r, s3)

/-- `highbrow.Try(n, fn)`: call `fn` up to `n` times, stop at the first nil
return, otherwise return the last error. Threads `lockAttempt`'s
`breakErr`. -/
def highbrowTry (n : Nat) (key : String)
    (op : RedisState → Option GoErr × RedisState) (s : RedisState) :
    Option GoErr × Option GoErr × RedisState :=
  match n with
  | 0 => (none, none, s)
  | Nat.succ m =>
      match lockAttempt key op s with
      | (none, be, s1) => (none, be, s1)
      | (some e, be, s1) =>
          if m = 0 then (some e, be, s1) else highbrowTry m key op s1

/-- `RedisCache.lockRetry` (part_002 lines 121-148): run `op` under the
`<key>-op` token via `highbrow.Try(c.lockRetries, ...)`; afterwards return
`breakErr` if it was set, else `Try`'s own error. -/
def RedisCache.lockRetry (c : RedisCache) (key : String)
    (op : RedisState → Option GoErr × RedisState) (s : RedisState) :
    Option GoErr × RedisState :=
  match highbrowTry c.lockRetries key op s with
  | (err, none, s1) => (err, s1)
  | (_, some e, s1) => (some e, s1)

/-- Insert or roll the raw (unserialized) value, `c.pool.Set(key, value,
expires)` as called from `Add`/`Replace` (part_002 lines 158, 191): the
value is encoded by the client's argument writer, not by `json.Marshal`. -/
def poolSetRaw (key : String) (value : JVal) (d : Int) (s : RedisState) :
    Option GoErr × RedisState :=
  match rawEncode value with
  | none => (some GoErr.encodeErr, s)
  | some b => poolSetBytes key b d s

/-- `RedisCache.Add` (part_002 lines 150-163). -/
def RedisCache.Add (c : RedisCache) (key : String) (value : JVal)
    (expires : Int) (s : RedisState) : Option GoErr × RedisState :=
  c.lockRetry key
    (fun t =>
      match poolExists key t with
      | (Except.error e, t1) => (some e, t1)
      | (Except.ok n, t1) =>
          if n = 0 then poolSetRaw key value expires t1
          else (some GoErr.notStored, t1))
    s

/-- `RedisCache.Replace` (part_002 lines 180-194). -/
def RedisCache.Replace (c : RedisCache) (key : String) (value : JVal)
    (expires : Int) (s : RedisState) : Option GoErr × RedisState :=
  c.lockRetry key
    (fun t =>
      match poolExists key t with
      | (Except.error e, t1) => (some e, t1)
      | (Except.ok n, t1) =>
          if n = 0 then (some GoErr.notStored, t1)
          else poolSetRaw key value expires t1)
    s

/-- `RedisCache.Get` (part_002 lines 196-207) with an `interface{}` target:
redis nil reply becomes `ErrCacheMiss`, other command errors pass through,
then `json.Unmarshal`. -/
def RedisCache.Get (_c : RedisCache) (key : String) (s : RedisState) :
    Except GoErr JVal × RedisState :=
  match poolGetBytes key s with
  | (Except.error e, s1) => (Except.error e, s1)
  | (Except.ok none, s1) => (Except.error GoErr.cacheMiss, s1)
  | (Except.ok (some b), s1) =>
      match decodeBytes b with
      | none => (Except.error GoErr.unmarshalErr, s1)
      | some v => (Except.ok v, s1)

/-- `RedisCache.Get` with a `map[string]interface{}` target (the call
`c.Get(key, &ptrValue)` in `SetFields`): as `RedisCache.Get`, but
`json.Unmarshal` additionally fails when the payload is not an object. -/
def RedisCache.GetMap (_c : RedisCache) (key : String) (s : RedisState) :
    Except GoErr (List (String × JPrim)) × RedisState :=
  match poolGetBytes key s with
  | (Except.error e, s1) => (Except.error e, s1)
  | (Except.ok none, s1) => (Except.error GoErr.cacheMiss, s1)
  | (Except.ok (some b), s1) =>
      match decodeBytes b with
      | some (JVal.jobj fs) => (Except.ok fs, s1)
      | _ => (Except.error GoErr.unmarshalErr, s1)

/-- `RedisCache.SetFields` (part_002 lines 165-178): inside `lockRetry`, get
the existing value into `ptrValue` (any error returned unchanged), run the
merge loop on `ptrValue`, then `c.Set(key, value, expires)` — the source
stores `value`, the partial map, and the merged `ptrValue` is discarded. -/
def RedisCache.SetFields (c : RedisCache) (key : String)
    (value : List (String × JPrim)) (expires : Int) (s : RedisState) :
    Option GoErr × RedisState :=
  c.lockRetry key
    (fun t =>
      match RedisCache.GetMap c key t with
      | (Except.error e, t1) => (some e, t1)
      | (Except.ok ptrValue, t1) =>
          let _merged := mergeFields ptrValue value
          RedisCache.Set c key (JVal.jobj value) expires t1)
    s

/-- `RedisCache.Delete` (part_002 lines 226-228): `c.pool.Del(key).Err()` —
the deleted count is discarded, so an absent key is not an error. -/
def RedisCache.Delete (_c : RedisCache) (key : String) (s : RedisState) :
    Option GoErr × RedisState :=
  match poolDel key s with
  | (Except.error e, s1) => (some e, s1)
  | (Except.ok _, s1) => (none, s1)

/-- `RedisCache.Delete` of the superseded redigo variant (part_001 lines
242-252): `redis.Bool(conn.Do("DEL", key))`; a zero count becomes
`ErrCacheMiss`. -/
def legacyDelete (key : String) (s : RedisState) :
    Option GoErr × RedisState :=
  match poolDel key s with
  | (Except.error e, s1) => (some e, s1)
  | (Except.ok n, s1) =>
      if n = 0 then (some GoErr.cacheMiss, s1) else (none, s1)

/-- The aggregator `RedisItemMapGetter` (part_002 line 239), a
`map[string]string` from key to the raw fetched payload. -/
abbrev RedisItemMapGetter := List (String × Bytes)

/-- `RedisItemMapGetter.Get` (part_002 lines 241-248): absent key is
`ErrCacheMiss`, otherwise `json.Unmarshal` the stored payload. -/
def RedisItemMapGetter.Get (g : RedisItemMapGetter) (key : String) :
    Except GoErr JVal :=
  match List.lookup key g with
  | none => Except.error GoErr.cacheMiss
  | some item =>
      match decodeBytes item with
      | none => Except.error GoErr.unmarshalErr
      | some v => Except.ok v

/-- The loop `for ix, key := range keys { m[key] = res[ix].(string) }`
(part_002 line 221): the naked type assertion panics (result `none`) when a
reply is nil — absent key — or when `res` is shorter than `keys`. -/
def buildStringMap : List String → List (Option Bytes) →
    Option (List (String × Bytes))
  | [], _ => some []
  | _ :: _, [] => none
  | k :: ks, r :: rs =>
      match r with
      | none => none
      | some b =>
          match buildStringMap ks rs with
          | none => none
          | some m => some ((k, b) :: m)

/-- `RedisCache.GetMulti` (part_002 lines 209-224): `MGET`, then
`ErrCacheMiss` on an empty reply, then build the string map —
`Outcome.panicked` when a requested key's reply is nil. -/
def RedisCache.GetMulti (_c : RedisCache) (keys : List String)
    (s : RedisState) : Outcome RedisItemMapGetter × RedisState :=
  match poolMGet keys s with
  | (Except.error e, s1) => (Outcome.err e, s1)
  | (Except.ok res, s1) =>
      if res.length = 0 then (Outcome.err GoErr.cacheMiss, s1)
      else
        match buildStringMap keys res with
        | none => (Outcome.panicked, s1)
        | some m => (Outcome.ok m, s1)

/-- An entry of the wrapped patrickmn/go-cache map: the value object is
stored as `interface{}`, unserialized; expiry is an optional absolute
instant (go-cache's `Expiration int64`, 0 meaning never). -/
structure GoCacheItem where
  value : JVal
  expiresAt : Option Nat
deriving DecidableEq, Repr

/-- `InMemoryCache` (inmemory.go lines 16-20) together with the wrapped
go-cache state; the mutex serializes operations, so state passing models
it. `now` is the frozen current time. -/
structure InMemoryCache where
  items : List (String × GoCacheItem)
  defaultExpiration : Int
  now : Nat
deriving DecidableEq, Repr

/-- `NewInMemoryCache` (inmemory.go lines 22-28) at time `now`. -/
def NewInMemoryCache (d : Int) (now : Nat) : InMemoryCache :=
  { items := [], defaultExpiration := d, now := now }

/-- go-cache `Get`: found only when present and not expired (expired when
`now > Expiration` for a positive expiration). -/
def goCacheLive (c : InMemoryCache) (k : String) : Option JVal :=
  match List.lookup k c.items with
  | none => none
  | some item =>
      match item.expiresAt with
      | none => some item.value
      | some t => if c.now > t then none else some item.value

/-- go-cache `Set`: a zero duration means the configured default; a
positive resolved duration sets an absolute expiry; otherwise the entry
never expires. -/
def goCacheSet (k : String) (v : JVal) (d : Int) (c : InMemoryCache) :
    InMemoryCache :=
  let d1 := if d = 0 then c.defaultExpiration else d
  let e := if d1 > 0 then some (c.now + d1.toNat) else none
  { c with items := (k, { value := v, expiresAt := e }) :: eraseKey k c.items }

/-- `InMemoryCache.Get` (inmemory.go lines 30-45): miss when absent or
expired; otherwise `json.Marshal` the stored object (surfacing a marshal
error) and `json.Unmarshal` into the caller's target — into `interface{}`
the round trip returns the value. -/
def InMemoryCache.Get (c : InMemoryCache) (key : String) :
    Except GoErr JVal :=
  match goCacheLive c key with
  | none => Except.error GoErr.cacheMiss
  | some v =>
      if serializable v then Except.ok v else Except.error GoErr.marshalErr

/-- `InMemoryCache.Set` (inmemory.go lines 78-84): store the object
unserialized; always returns nil. -/
def InMemoryCache.Set (c : InMemoryCache) (key : String) (v : JVal)
    (d : Int) : Option GoErr × InMemoryCache :=
  (none, goCacheSet key v d c)

/-- `InMemoryCache.Add` (inmemory.go lines 86-94): go-cache `Add` fails on a
live entry; its error is mapped to `ErrNotStored`. -/
def InMemoryCache.Add (c : InMemoryCache) (key : String) (v : JVal)
    (d : Int) : Option GoErr × InMemoryCache :=
  match goCacheLive c key with
  | some _ => (some GoErr.notStored, c)
  | none => (none, goCacheSet key v d c)

/-- `InMemoryCache.Replace` (inmemory.go lines 96-103). -/
def InMemoryCache.Replace (c : InMemoryCache) (key : String) (v : JVal)
    (d : Int) : Option GoErr × InMemoryCache :=
  match goCacheLive c key with
  | none => (some GoErr.notStored, c)
  | some _ => (none, goCacheSet key v d c)

/-- `InMemoryCache.SetFields` (inmemory.go lines 51-76): absent →
`ErrNotStored`; marshal the existing value (surfacing a marshal error);
unmarshal into a `map[string]interface{}` (failing when it is not an
object); merge the partial value in; store the merged map. -/
def InMemoryCache.SetFields (c : InMemoryCache) (key : String)
    (value : List (String × JPrim)) (d : Int) :
    Option GoErr × InMemoryCache :=
  match goCacheLive c key with
  | none => (some GoErr.notStored, c)
  | some v =>
      if serializable v then
        match v with
        | JVal.jobj fs =>
            (none, goCacheSet key (JVal.jobj (mergeFields fs value)) d c)
        | _ => (some GoErr.unmarshalErr, c)
      else (some GoErr.marshalErr, c)

/-- `InMemoryCache.Delete` (inmemory.go lines 120-125): go-cache `Delete`
is a plain map delete; always returns nil. -/
def InMemoryCache.Delete (c : InMemoryCache) (key : String) :
    Option GoErr × InMemoryCache :=
  (none, { c with items := eraseKey key c.items })

/-- `InMemoryCache.Flush` (inmemory.go lines 127-133): always nil. -/
def InMemoryCache.Flush (c : InMemoryCache) : Option GoErr × InMemoryCache :=
  (none, { c with items := [] })

/-- The state right after a successful `SETNX` of the lock token of `key`. -/
def acquireState (key : String) (s : RedisState) : RedisState :=
  (poolSetNX (key ++ "-op") lockWindow s).2

/-- A healthy networked store holding nothing, at time 0. -/
def emptyState : RedisState := { store := [], faults := [], log := [], now := 0 }

/-- Options as the repository's own test factory builds them: only `Host`
and `Expiration` set (here one hour, in seconds). -/
def optsW : RedisOpts :=
  { MaxIdle := 0, MaxActive := 0, Protocol := "", Host := "localhost:6379",
    Password := "", Expiration := 3600, TimeoutConnect := 0, TimeoutRead := 0,
    TimeoutWrite := 0, TimeoutIdle := 0 }

/-- The networked backend under test. -/
def cacheW : RedisCache := NewRedisCache optsW

theorem lookup_eraseKey_self {β : Type} (k : String) (l : List (String × β)) :
    List.lookup k (eraseKey k l) = none := by
  induction l with
  | nil => rfl
  | cons hd tl ih =>
      by_cases h : hd.1 = k
      · simpa [eraseKey, List.filter, h] using ih
      · simp only [eraseKey, List.filter] at ih ⊢
        rw [show (hd.1 != k) = true by simpa using h]
        simp only [List.lookup]
        rw [show (k == hd.1) = false by simp [Ne.symm h]]
        exact ih

theorem lookup_eraseKey_ne {β : Type} (k k2 : String) (l : List (String × β))
    (h : k ≠ k2) : List.lookup k (eraseKey k2 l) = List.lookup k l := by
  induction l with
  | nil => rfl
  | cons hd tl ih =>
      by_cases hh : hd.1 = k2
      · simp only [eraseKey, List.filter] at ih ⊢
        rw [show (hd.1 != k2) = false by simpa using hh]
        rw [ih]
        simp only [List.lookup]
        rw [show (k == hd.1) = false by simp [hh, h]]
      · simp only [eraseKey, List.filter] at ih ⊢
        rw [show (hd.1 != k2) = true by simpa using hh]
        simp only [List.lookup, ih]

theorem ne_append_op (key : String) : key ≠ key ++ "-op" := by
  intro h
  have h2 := congrArg String.length h
  rw [String.length_append] at h2
  have h3 : "-op".length = 3 := rfl
  omega

theorem lockAttempt_contended (key : String)
    (op : RedisState → Option GoErr × RedisState) (s : RedisState)
    (hf : s.faults = [])
    (ht : (liveLookup (key ++ "-op") s.store s.now).isSome = true) :
    lockAttempt key op s
      = (some GoErr.lockFailed, none, logCmd (Cmd.setnx (key ++ "-op")) s) := by
  obtain ⟨store, faults, log, now⟩ := s
  simp only [RedisState.faults] at hf
  subst hf
  simp only [RedisState.store, RedisState.now] at ht
  simp [lockAttempt, poolSetNX, popFault, logCmd, ht]

theorem lockAttempt_fault (key : String)
    (op : RedisState → Option GoErr × RedisState) (s : RedisState)
    (e : GoErr) (fs : List (Option GoErr))
    (hf : s.faults = some e :: fs) :
    lockAttempt key op s
      = (none, some e,
         { s with faults := fs, log := s.log ++ [Cmd.setnx (key ++ "-op")] }) := by
  obtain ⟨store, faults, log, now⟩ := s
  simp only [RedisState.faults] at hf
  subst hf
  simp [lockAttempt, poolSetNX, popFault, logCmd]

theorem lockAttempt_free (key : String)
    (op : RedisState → Option GoErr × RedisState) (s : RedisState)
    (hf : s.faults = [])
    (ht : liveLookup (key ++ "-op") s.store s.now = none) :
    lockAttempt key op s
      = (none, (op (acquireState key s)).1,
         (poolDel (key ++ "-op") (op (acquireState key s)).2).2) := by
  obtain ⟨store, faults, log, now⟩ := s
  simp only [RedisState.faults] at hf
  subst hf
  simp only [RedisState.store, RedisState.now] at ht
  simp [lockAttempt, acquireState, poolSetNX, popFault, logCmd, ht]

theorem highbrowTry_contended (n : Nat) (key : String)
    (op : RedisState → Option GoErr × RedisState) :
    ∀ s : RedisState, 1 ≤ n → s.faults = [] →
      (liveLookup (key ++ "-op") s.store s.now).isSome = true →
      highbrowTry n key op s
        = (some GoErr.lockFailed, none,
           { s with log := s.log ++ List.replicate n (Cmd.setnx (key ++ "-op")) }) := by
  induction n with
  | zero => intro s hn; omega
  | succ m ih =>
      intro s _ hf ht
      rw [highbrowTry, lockAttempt_contended key op s hf ht]
      by_cases hm : m = 0
      · subst hm
        simp [logCmd, List.replicate]
      · have hm1 : 1 ≤ m := Nat.one_le_iff_ne_zero.mpr hm
        have ih2 := ih (logCmd (Cmd.setnx (key ++ "-op")) s) hm1 hf ht
        simp only [hm, if_false]
        rw [ih2]
        simp [logCmd, List.replicate_succ, List.append_assoc]

theorem lockRetry_contended (c : RedisCache) (key : String)
    (op : RedisState → Option GoErr × RedisState) (s : RedisState)
    (hr : 1 ≤ c.lockRetries) (hf : s.faults = [])
    (ht : (liveLookup (key ++ "-op") s.store s.now).isSome = true) :
    c.lockRetry key op s
      = (some GoErr.lockFailed,
         { s with log := s.log ++ List.replicate c.lockRetries (Cmd.setnx (key ++ "-op")) }) := by
  rw [RedisCache.lockRetry, highbrowTry_contended c.lockRetries key op s hr hf ht]

theorem lockRetry_fault (c : RedisCache) (key : String)
    (op : RedisState → Option GoErr × RedisState) (s : RedisState)
    (e : GoErr) (fs : List (Option GoErr))
    (hr : 1 ≤ c.lockRetries) (hf : s.faults = some e :: fs) :
    c.lockRetry key op s
      = (some e,
         { s with faults := fs, log := s.log ++ [Cmd.setnx (key ++ "-op")] }) := by
  obtain ⟨m, hm⟩ := Nat.exists_eq_add_of_le hr
  rw [RedisCache.lockRetry, hm]
  rw [show 1 + m = m + 1 by omega]
  rw [highbrowTry, lockAttempt_fault key op s e fs hf]

theorem lockRetry_acquired (c : RedisCache) (key : String)
    (op : RedisState → Option GoErr × RedisState) (s : RedisState)
    (hr : 1 ≤ c.lockRetries) (hf : s.faults = [])
    (ht : liveLookup (key ++ "-op") s.store s.now = none) :
    c.lockRetry key op s
      = ((op (acquireState key s)).1,
         (poolDel (key ++ "-op") (op (acquireState key s)).2).2) := by
  obtain ⟨m, hm⟩ := Nat.exists_eq_add_of_le hr
  rw [RedisCache.lockRetry, hm]
  rw [show 1 + m = m + 1 by omega]
  rw [highbrowTry, lockAttempt_free key op s hf ht]
  cases hro : (op (acquireState key s)).1 <;> simp

theorem acquireState_eq (key : String) (s : RedisState)
    (hf : s.faults = [])
    (ht : liveLookup (key ++ "-op") s.store s.now = none) :
    acquireState key s
      = { s with
          store := storePut (key ++ "-op") Bytes.lockMark
                     (expAt lockWindow s.now) s.store,
          log := s.log ++ [Cmd.setnx (key ++ "-op")] } := by
  obtain ⟨store, faults, log, now⟩ := s
  simp only [RedisState.faults] at hf
  subst hf
  simp only [RedisState.store, RedisState.now] at ht
  simp [acquireState, poolSetNX, popFault, logCmd, ht]

theorem poolDel_state (k : String) (s : RedisState) (hf : s.faults = []) :
    (poolDel k s).2
      = { s with store := eraseKey k s.store, log := s.log ++ [Cmd.del k] } := by
  obtain ⟨store, faults, log, now⟩ := s
  simp only [RedisState.faults] at hf
  subst hf
  simp [poolDel, popFault, logCmd]

theorem lookup_storePut_ne (k tok : String) (b : Bytes) (e : Option Nat)
    (st : RStore) (h : k ≠ tok) :
    List.lookup k (storePut tok b e st) = List.lookup k st := by
  simp only [storePut, List.lookup]
  rw [show (k == tok) = false by simp [h]]
  exact lookup_eraseKey_ne k tok st h

theorem getMap_absent (c : RedisCache) (key : String) (s : RedisState)
    (hf : s.faults = [])
    (hkey : liveLookup key s.store s.now = none) :
    RedisCache.GetMap c key s
      = (Except.error GoErr.cacheMiss, logCmd (Cmd.get key) s) := by
  obtain ⟨store, faults, log, now⟩ := s
  simp only [RedisState.faults] at hf
  subst hf
  simp only [RedisState.store, RedisState.now] at hkey
  simp [RedisCache.GetMap, poolGetBytes, popFault, logCmd, hkey]

theorem redis_setFields_absent_general (c : RedisCache) (key : String)
    (fv : List (String × JPrim)) (d : Int) (s : RedisState)
    (hr : 1 ≤ c.lockRetries) (hf : s.faults = [])
    (htok : List.lookup (key ++ "-op") s.store = none)
    (hkey : List.lookup key s.store = none) :
    (RedisCache.SetFields c key fv d s).1 = some GoErr.cacheMiss := by
  have htok2 : liveLookup (key ++ "-op") s.store s.now = none := by
    simp [liveLookup, htok]
  rw [RedisCache.SetFields, lockRetry_acquired c key _ s hr hf htok2]
  rw [acquireState_eq key s hf htok2]
  have hkey2 : liveLookup key
      (storePut (key ++ "-op") Bytes.lockMark (expAt lockWindow s.now) s.store)
      s.now = none := by
    simp only [liveLookup]
    rw [lookup_storePut_ne key (key ++ "-op") _ _ _ (ne_append_op key), hkey]
  rw [getMap_absent c key
    { store := storePut (key ++ "-op") Bytes.lockMark (expAt lockWindow s.now) s.store,
      faults := s.faults, log := s.log ++ [Cmd.setnx (key ++ "-op")], now := s.now }
    hf hkey2]

/-- A healthy store whose key "k" holds the JSON object with the single
field "b" = 2. -/
def stateB : RedisState :=
  { store := [("k", Bytes.json (JVal.jobj [("b", JPrim.pnum 2)]), none)],
    faults := [], log := [], now := 0 }

/-- Claim C1: on a key holding the field mapping with "b" = 2, the networked
backend's `SetFields` with the partial mapping "a" = 1 succeeds, but the next
`Get` returns only the partial mapping — the field "b" is gone, and the
result differs from the merged mapping the claim requires. The source
computes the merge into `ptrValue` and then stores `value` instead
(part_002 line 176). -/
theorem redis_setFields_stores_partial_map :
    (RedisCache.SetFields cacheW "k" [("a", JPrim.pnum 1)] 10 stateB).1 = none ∧
    (RedisCache.Get cacheW "k"
        (RedisCache.SetFields cacheW "k" [("a", JPrim.pnum 1)] 10 stateB).2).1
      = Except.ok (JVal.jobj [("a", JPrim.pnum 1)]) ∧
    JVal.jobj [("a", JPrim.pnum 1)]
      ≠ JVal.jobj (mergeFields [("b", JPrim.pnum 2)] [("a", JPrim.pnum 1)]) :=
  ⟨rfl, rfl, by decide⟩

/-- Claim C2: the retry budget is the constant 5, `NewRedisCache` installs
it; when the lock token already exists (a live entry under `<key>-op`) and
the store is healthy, `lockRetry` issues exactly `lockRetries` SETNX
attempts and then surfaces the contention error `lockFailed`; when the
SETNX command itself fails with a store error, `lockRetry` aborts after
that single attempt and surfaces that error unchanged. -/
theorem lockRetry_budget_and_abort :
    lockRetries = 5 ∧
    (∀ opts : RedisOpts, (NewRedisCache opts).lockRetries = 5) ∧
    (∀ (c : RedisCache) (key : String)
        (op : RedisState → Option GoErr × RedisState) (s : RedisState),
        1 ≤ c.lockRetries → s.faults = [] →
        (liveLookup (key ++ "-op") s.store s.now).isSome = true →
        c.lockRetry key op s
          = (some GoErr.lockFailed,
             { s with log := s.log ++ List.replicate c.lockRetries (Cmd.setnx (key ++ "-op")) })) ∧
    (∀ (c : RedisCache) (key : String)
        (op : RedisState → Option GoErr × RedisState) (s : RedisState)
        (e : GoErr) (fs : List (Option GoErr)),
        1 ≤ c.lockRetries → s.faults = some e :: fs →
        c.lockRetry key op s
          = (some e,
             { s with faults := fs, log := s.log ++ [Cmd.setnx (key ++ "-op")] })) :=
  ⟨rfl, fun _ => rfl, lockRetry_contended, lockRetry_fault⟩

/-- A healthy store in which the lock token of "k" is already held. -/
def stateTok : RedisState :=
  { store := [("k-op", Bytes.lockMark, none)], faults := [], log := [], now := 0 }

/-- A store whose next command fails with transport error 7. -/
def stateFault : RedisState :=
  { store := [], faults := [some (GoErr.storeFault 7)], log := [], now := 0 }

/-- A critical section that does nothing and succeeds. -/
def opNoop : RedisState → Option GoErr × RedisState := fun t => (none, t)

/-- Witness for `lockRetry_budget_and_abort` at a held token and at an
injected store fault. -/
theorem lockRetry_budget_and_abort_witness :
    RedisCache.lockRetry cacheW "k" opNoop stateTok
      = (some GoErr.lockFailed,
         { stateTok with
           log := stateTok.log ++ List.replicate cacheW.lockRetries (Cmd.setnx ("k" ++ "-op")) }) ∧
    RedisCache.lockRetry cacheW "k" opNoop stateFault
      = (some (GoErr.storeFault 7),
         { stateFault with faults := [], log := stateFault.log ++ [Cmd.setnx ("k" ++ "-op")] }) :=
  ⟨lockRetry_budget_and_abort.2.2.1 cacheW "k" opNoop stateTok (by decide) rfl (by decide),
   lockRetry_budget_and_abort.2.2.2 cacheW "k" opNoop stateFault (GoErr.storeFault 7) [] (by decide) rfl⟩

/-- Claim C3: whenever `lockRetry` successfully creates the lock token (the
token was not live, the store healthy), the whole call returns exactly the
critical section's outcome — also when that outcome is an error — and runs
the deferred DEL of the token afterwards, so the token is absent from the
final store. -/
theorem lockRetry_releases_token_and_returns_outcome :
    ∀ (c : RedisCache) (key : String)
      (op : RedisState → Option GoErr × RedisState) (s : RedisState),
      1 ≤ c.lockRetries → s.faults = [] →
      liveLookup (key ++ "-op") s.store s.now = none →
      ((op (acquireState key s)).2).faults = [] →
      c.lockRetry key op s
        = ((op (acquireState key s)).1,
           (poolDel (key ++ "-op") (op (acquireState key s)).2).2) ∧
      List.lookup (key ++ "-op") ((c.lockRetry key op s).2.store) = none := by
  intro c key op s hr hf ht hop
  have h1 := lockRetry_acquired c key op s hr hf ht
  refine ⟨h1, ?_⟩
  rw [h1]
  rw [poolDel_state _ _ hop]
  exact lookup_eraseKey_self _ _

/-- A critical section that fails with `ErrNotStored`. -/
def opFail : RedisState → Option GoErr × RedisState :=
  fun t => (some GoErr.notStored, t)

/-- Witness for `lockRetry_releases_token_and_returns_outcome` with a
failing critical section on the empty store. -/
theorem lockRetry_releases_token_witness :
    RedisCache.lockRetry cacheW "k" opFail emptyState
      = ((opFail (acquireState "k" emptyState)).1,
         (poolDel ("k" ++ "-op") (opFail (acquireState "k" emptyState)).2).2) ∧
    List.lookup ("k" ++ "-op")
        ((RedisCache.lockRetry cacheW "k" opFail emptyState).2.store) = none :=
  lockRetry_releases_token_and_returns_outcome cacheW "k" opFail emptyState
    (by decide) rfl rfl rfl

/-- Claim C4: on the networked backend, `Add` of the string "foo" succeeds
and a second `Add` fails with `NotStored` as claimed, but the subsequent
`Get` does not return "foo": `Add` stored the raw unserialized value
(part_002 line 158) while `Get` json-decodes, so `Get` fails with a decode
error. -/
theorem redis_add_breaks_get_roundtrip :
    (RedisCache.Add cacheW "k" (JVal.jstr "foo") 10 emptyState).1 = none ∧
    (RedisCache.Add cacheW "k" (JVal.jstr "bar") 10
        (RedisCache.Add cacheW "k" (JVal.jstr "foo") 10 emptyState).2).1
      = some GoErr.notStored ∧
    (RedisCache.Get cacheW "k"
        (RedisCache.Add cacheW "k" (JVal.jstr "bar") 10
          (RedisCache.Add cacheW "k" (JVal.jstr "foo") 10 emptyState).2).2).1
      = Except.error GoErr.unmarshalErr :=
  ⟨rfl, rfl, rfl⟩

/-- Claim C5: although the backend was configured with `Expiration = 3600`,
`NewRedisCache` leaves `defaultExpiration` at 0, and a `Set` with the
`DefaultExpiry` sentinel stores the entry with no expiry at all instead of
the configured default duration; the `NeverExpire` sentinel also results in
no expiry directive (that half as claimed). -/
theorem redis_set_ignores_expiry_sentinels :
    optsW.Expiration = 3600 ∧
    cacheW.defaultExpiration = 0 ∧
    (RedisCache.Set cacheW "k" (JVal.jnum 7) DefaultExpiryTime emptyState).1 = none ∧
    List.lookup "k"
        (RedisCache.Set cacheW "k" (JVal.jnum 7) DefaultExpiryTime emptyState).2.store
      = some (Bytes.json (JVal.jnum 7), none) ∧
    List.lookup "k"
        (RedisCache.Set cacheW "k" (JVal.jnum 7) ForEverNeverExpiry emptyState).2.store
      = some (Bytes.json (JVal.jnum 7), none) :=
  ⟨rfl, rfl, rfl, by decide, by decide⟩

/-- A healthy store holding only key "x". -/
def stateX : RedisState :=
  { store := [("x", Bytes.json (JVal.jnum 42), none)],
    faults := [], log := [], now := 0 }

/-- Claim C6: `GetMulti(["x","y"])` with "x" present and "y" absent does not
return an aggregator at all — the naked type assertion on the nil MGET
reply panics (part_002 line 221). When every requested key is present the
aggregator is built, its `Get` on a fetched key decodes the value, and its
`Get` on a key outside the snapshot fails with `CacheMiss`. -/
theorem getMulti_panics_on_absent_key :
    (RedisCache.GetMulti cacheW ["x", "y"] stateX).1 = Outcome.panicked ∧
    (RedisCache.GetMulti cacheW ["x"] stateX).1
      = Outcome.ok [("x", Bytes.json (JVal.jnum 42))] ∧
    RedisItemMapGetter.Get [("x", Bytes.json (JVal.jnum 42))] "x"
      = Except.ok (JVal.jnum 42) ∧
    RedisItemMapGetter.Get [("x", Bytes.json (JVal.jnum 42))] "y"
      = Except.error GoErr.cacheMiss :=
  ⟨by decide, by decide, rfl, rfl⟩

/-- Counterexample to claim C7 as stated: deleting the absent key "nope" on
the current networked backend returns nil, not `CacheMiss` — the deleted
count of DEL is discarded (part_002 line 227). -/
theorem redis_delete_absent_returns_nil :
    List.lookup "nope" emptyState.store = none ∧
    (RedisCache.Delete cacheW "nope" emptyState).1 = none :=
  ⟨rfl, rfl⟩

/-- Claim C7 (amended): `Delete` on an absent key returns success on the
Local backend and also on the current Networked backend; only the
superseded networked variant (part_001) returned `CacheMiss` for an absent
key. -/
theorem delete_absent_uniform_success :
    (∀ (c : InMemoryCache) (key : String), (InMemoryCache.Delete c key).1 = none) ∧
    (∀ (c : RedisCache) (key : String) (s : RedisState), s.faults = [] →
        (RedisCache.Delete c key s).1 = none) ∧
    (∀ (key : String) (s : RedisState), s.faults = [] →
        List.lookup key s.store = none →
        (legacyDelete key s).1 = some GoErr.cacheMiss) := by
  refine ⟨fun c key => rfl, ?_, ?_⟩
  · intro c key s hf
    obtain ⟨store, faults, log, now⟩ := s
    simp only [RedisState.faults] at hf
    subst hf
    simp [RedisCache.Delete, poolDel, popFault, logCmd]
  · intro key s hf hk
    obtain ⟨store, faults, log, now⟩ := s
    simp only [RedisState.faults] at hf
    subst hf
    simp only [RedisState.store] at hk
    simp [legacyDelete, poolDel, popFault, logCmd, liveLookup, hk]

/-- Witness for `delete_absent_uniform_success` on the key "nope" over
empty backends. -/
theorem delete_absent_uniform_success_witness :
    (InMemoryCache.Delete (NewInMemoryCache 0 0) "nope").1 = none ∧
    (RedisCache.Delete cacheW "nope" emptyState).1 = none ∧
    (legacyDelete "nope" emptyState).1 = some GoErr.cacheMiss :=
  ⟨delete_absent_uniform_success.1 (NewInMemoryCache 0 0) "nope",
   delete_absent_uniform_success.2.1 cacheW "nope" emptyState rfl,
   delete_absent_uniform_success.2.2 "nope" emptyState rfl rfl⟩

/-- Counterexample to claim C8 as stated: `SetFields` on the absent key "k"
of the networked backend fails with `CacheMiss`, not `NotStored` — the
internal `Get`'s error is returned unchanged (part_002 line 169). -/
theorem redis_setFields_absent_misses :
    List.lookup "k" emptyState.store = none ∧
    (RedisCache.SetFields cacheW "k" [("a", JPrim.pnum 1)] 10 emptyState).1
      = some GoErr.cacheMiss ∧
    GoErr.cacheMiss ≠ GoErr.notStored :=
  ⟨rfl, rfl, by decide⟩

/-- Claim C8 (amended): with no live entry under the key, `SetFields` fails
with `NotStored` on the Local backend, while the networked backend
propagates the underlying `CacheMiss` from its internal `Get` unchanged. -/
theorem setFields_absent_error_by_backend :
    (∀ (c : InMemoryCache) (key : String) (fv : List (String × JPrim)) (d : Int),
        goCacheLive c key = none →
        (InMemoryCache.SetFields c key fv d).1 = some GoErr.notStored) ∧
    (∀ (c : RedisCache) (key : String) (fv : List (String × JPrim)) (d : Int)
        (s : RedisState),
        1 ≤ c.lockRetries → s.faults = [] →
        List.lookup (key ++ "-op") s.store = none →
        List.lookup key s.store = none →
        (RedisCache.SetFields c key fv d s).1 = some GoErr.cacheMiss) := by
  refine ⟨?_, redis_setFields_absent_general⟩
  intro c key fv d h
  simp [InMemoryCache.SetFields, h]

/-- Witness for `setFields_absent_error_by_backend` on empty backends. -/
theorem setFields_absent_error_by_backend_witness :
    (InMemoryCache.SetFields (NewInMemoryCache 0 0) "k" [("a", JPrim.pnum 1)] 10).1
      = some GoErr.notStored ∧
    (RedisCache.SetFields cacheW "k" [("a", JPrim.pnum 1)] 10 emptyState).1
      = some GoErr.cacheMiss :=
  ⟨setFields_absent_error_by_backend.1 (NewInMemoryCache 0 0) "k" [("a", JPrim.pnum 1)] 10 rfl,
   setFields_absent_error_by_backend.2 cacheW "k" [("a", JPrim.pnum 1)] 10 emptyState
     (by decide) rfl rfl rfl⟩

/-- A healthy store holding only key "a". -/
def stateA : RedisState :=
  { store := [("a", Bytes.json (JVal.jstr "v"), none)],
    faults := [], log := [], now := 0 }

/-- Claim C9: the networked backend has an execution path that aborts the
process — `GetMulti` over the present key "a" and the absent keys "b", "c"
panics on the nil type assertion instead of returning an error value. -/
theorem getMulti_aborts_process_on_absent_key :
    (RedisCache.GetMulti cacheW ["a", "b", "c"] stateA).1 = Outcome.panicked := by
  decide

/-- Claim C10: the local backend's `Set`, `Delete` and `Flush` return nil on
every input; `Set` stores the value object without serializing it, so even
an unserializable value is accepted, and the serialization failure surfaces
only as a marshal error from a later `Get` of that key. -/
theorem inmemory_writes_always_succeed :
    (∀ (c : InMemoryCache) (key : String) (v : JVal) (d : Int),
        (InMemoryCache.Set c key v d).1 = none) ∧
    (∀ (c : InMemoryCache) (key : String), (InMemoryCache.Delete c key).1 = none) ∧
    (∀ c : InMemoryCache, (InMemoryCache.Flush c).1 = none) ∧
    (∀ (c : InMemoryCache) (key : String) (v : JVal), serializable v = false →
        (InMemoryCache.Set c key v ForEverNeverExpiry).1 = none ∧
        InMemoryCache.Get (InMemoryCache.Set c key v ForEverNeverExpiry).2 key
          = Except.error GoErr.marshalErr) := by
  refine ⟨fun c key v d => rfl, fun c key => rfl, fun c => rfl, ?_⟩
  intro c key v h
  refine ⟨rfl, ?_⟩
  simp [InMemoryCache.Get, InMemoryCache.Set, goCacheSet, goCacheLive,
    ForEverNeverExpiry, List.lookup, h]

/-- Witness for `inmemory_writes_always_succeed` with the unserializable
value on an empty local backend. -/
theorem inmemory_writes_always_succeed_witness :
    (InMemoryCache.Set (NewInMemoryCache 0 0) "k" (JVal.jnum 1) 1).1 = none ∧
    (InMemoryCache.Delete (NewInMemoryCache 0 0) "k").1 = none ∧
    (InMemoryCache.Flush (NewInMemoryCache 0 0)).1 = none ∧
    ((InMemoryCache.Set (NewInMemoryCache 0 0) "k" JVal.jbad ForEverNeverExpiry).1 = none ∧
      InMemoryCache.Get
          (InMemoryCache.Set (NewInMemoryCache 0 0) "k" JVal.jbad ForEverNeverExpiry).2 "k"
        = Except.error GoErr.marshalErr) :=
  ⟨inmemory_writes_always_succeed.1 (NewInMemoryCache 0 0) "k" (JVal.jnum 1) 1,
   inmemory_writes_always_succeed.2.1 (NewInMemoryCache 0 0) "k",
   inmemory_writes_always_succeed.2.2.1 (NewInMemoryCache 0 0),
   inmemory_writes_always_succeed.2.2.2 (NewInMemoryCache 0 0) "k" JVal.jbad rfl⟩

end GoCache
